import Mathlib

/-!
Verification of the resilient-extraction subsystem of the Ripley scraper.

Shallow embedding of `src/pipeline/scrapper.py` (class `Scrapper`) and of the
cookie persistence helpers of `src/scripts/main_scrapper.py`.

The live browser is modelled by environments: a DOM lookup is a function from
an XPath string to a `WaitResult` (the element was found and projected to a
string, the bounded wait timed out / the element was missing, or a
session-level exception occurred).  The retry loop of `scrap_ripley`, the
scroll loop of `_scroll_page` and the slot iteration are translated
step-for-step from the Python source.
-/

namespace Scrapper

/-- Outcome of one bounded DOM wait (`WebDriverWait(...).until(...)` followed
by a projection of the element to a string): `found v` means the element was
located and projected to `v` (its `.text`, or its `src` attribute for images);
`timeout` means `TimeoutException` or `NoSuchElementException` was raised;
`fatal msg` is any other exception, which the safe finders do not catch. -/
inductive WaitResult where
  | found (value : String)
  | timeout
  | fatal (msg : String)
  deriving DecidableEq, Repr

/-- One product record: the four per-slot fields appended by `scrap_ripley`
to its four parallel lists.  Field names follow the Python lists
(`descripciones`, `precios_regular`, `precios_oferta`, `imagenes`). -/
structure ProductRecord where
  descripcion : String
  precio_regular : String
  precio_oferta : String
  imagen : String
  deriving DecidableEq, Repr

/-- The all-empty fallback record appended when a slot exhausts its retries. -/
def emptyRecord : ProductRecord := ⟨"", "", "", ""⟩

/-- Embedding of `Scrapper._find_element_safe`: wait for the element at
`xpath` and return its text; `TimeoutException` / `NoSuchElementException`
yield the empty string; any other exception propagates (`Except.error`). -/
def find_element_safe (dom : String → WaitResult) (xpath : String) :
    Except String String :=
  match dom xpath with
  | .found t => .ok t
  | .timeout => .ok ""
  | .fatal m => .error m

/-- Embedding of `Scrapper._find_image_safe`: try each XPath in order and
return the `src` attribute of the first element found; a timeout falls
through to the next XPath; if every XPath times out, return the empty string;
any other exception propagates. -/
def find_image_safe (dom : String → WaitResult) : List String → Except String String
  | [] => .ok ""
  | x :: rest =>
    match dom x with
    | .found v => .ok v
    | .timeout => find_image_safe dom rest
    | .fatal m => .error m

/-- The image XPath suffixes of `scrap_ripley`, in priority order. -/
def image_xpaths : List String :=
  ["//div[2]/div[2]/div[1]/img",
   "//div[2]/div[2]/div[4]/img",
   "//div[2]/div[2]/div[3]/img",
   "//div[2]/div[2]/div[2]/img"]

/-- `base_xpath.format(i)` of `scrap_ripley`. -/
def base_xpath (i : Nat) : String :=
  "/html/body/div[7]/div[2]/div/div[2]/section/div/div/div[" ++ toString i ++ "]"

/-- The description XPath for slot `i`. -/
def desc_xpath (i : Nat) : String := base_xpath i ++ "/div/a/div[3]/div[3]"

/-- The regular-price XPath for slot `i`. -/
def price_reg_xpath (i : Nat) : String :=
  base_xpath i ++ "/div/a/div[3]/div[4]/div/ul/li[1]"

/-- The offer-price XPath for slot `i`. -/
def price_off_xpath (i : Nat) : String :=
  base_xpath i ++ "/div/a/div[3]/div[4]/div/ul/li[2]"

/-- The image XPath candidates for slot `i`. -/
def img_xpaths (i : Nat) : List String :=
  image_xpaths.map (fun p => base_xpath i ++ "/div/a" ++ p)

/-- State of the rendered DOM at one moment: the result of a text lookup and
of an image (`src`-attribute) lookup for each XPath. -/
structure DomState where
  text : String → WaitResult
  attr : String → WaitResult

/-- One attempt of the `try` body of the retry loop of `scrap_ripley` for
slot `i`: the three text lookups and the image lookup, in source order; an
uncaught exception in any of them aborts the attempt (`Except.error`). -/
def attemptExtract (dom : DomState) (i : Nat) : Except String ProductRecord := do
  let d ← find_element_safe dom.text (desc_xpath i)
  let r ← find_element_safe dom.text (price_reg_xpath i)
  let o ← find_element_safe dom.text (price_off_xpath i)
  let im ← find_image_safe dom.attr (img_xpaths i)
  return ⟨d, r, o, im⟩

/-- Embedding of `for retry in range(max_retries)` in `scrap_ripley`.
`denv r` is the DOM state seen by attempt number `r`.  A successful attempt
returns its record; on an exception, the last attempt
(`retry == max_retries - 1`) records the all-empty fallback, earlier attempts
sleep and retry.  `none` means the loop body never appended (only possible
when `maxRetries = 0`). -/
def retryLoop (denv : Nat → DomState) (i maxRetries : Nat) :
    (fuel retry : Nat) → Option ProductRecord
  | 0, _ => none
  | fuel + 1, retry =>
    match attemptExtract (denv retry) i with
    | .ok rec => some rec
    | .error _ =>
      if retry = maxRetries - 1 then some emptyRecord
      else retryLoop denv i maxRetries fuel (retry + 1)

/-- The record appended for one slot by the retry loop of `scrap_ripley`. -/
def extractSlot (denv : Nat → DomState) (i maxRetries : Nat) : Option ProductRecord :=
  retryLoop denv i maxRetries maxRetries 0

/-- The loop of `Scrapper._scroll_page`: at iteration `i`, if the scroll
action succeeds (`env i = true`) the driver is sent a scroll with horizontal
offset `current`, `current` advances by `step` and the loop continues;
if it throws, the loop breaks.  Returns the final offset and the list of
offsets of the scroll actions actually performed. -/
def scrollLoop (env : Nat → Bool) (step : Int) :
    (fuel i : Nat) → (current : Int) → Int × List Int
  | 0, _, current => (current, [])
  | fuel + 1, i, current =>
    if env i then
      let rest := scrollLoop env step fuel (i + 1) (current + step)
      (rest.1, current :: rest.2)
    else (current, [])

/-- Embedding of `Scrapper._scroll_page` (defaults `start = 0`,
`step = 800`, `max_scrolls = 30`). -/
def scroll_page (env : Nat → Bool) (start step : Int) (max_scrolls : Nat) :
    Int × List Int :=
  scrollLoop env step max_scrolls 0 start

/-- Result of `scrap_ripley`: the four parallel field lists, plus the trace
of Scroll Driver invocations (slot index at which `_scroll_page` was called,
with its result). -/
structure HarvestResult where
  descripciones : List String
  precios_regular : List String
  precios_oferta : List String
  imagenes : List String
  scrolls : List (Nat × (Int × List Int))
  deriving Repr

/-- Append one record's four fields to the four parallel lists. -/
def appendRecord (acc : HarvestResult) (r : ProductRecord) : HarvestResult :=
  { acc with
    descripciones := acc.descripciones ++ [r.descripcion],
    precios_regular := acc.precios_regular ++ [r.precio_regular],
    precios_oferta := acc.precios_oferta ++ [r.precio_oferta],
    imagenes := acc.imagenes ++ [r.imagen] }

/-- The record-appending part of one iteration of the slot loop of
`scrap_ripley`. -/
def recordStep (env : Nat → Nat → DomState) (maxRetries : Nat)
    (acc : HarvestResult) (i : Nat) : HarvestResult :=
  match extractSlot (env i) i maxRetries with
  | some r => appendRecord acc r
  | none => acc

/-- The scroll part of one iteration of the slot loop of `scrap_ripley`:
`if i % 10 == 0: self._scroll_page(step=800)`, with the cadence `K`
abstracted. `sE i` is the scroll environment for the invocation at slot `i`. -/
def scrollStep (sE : Nat → Nat → Bool) (K : Nat)
    (acc : HarvestResult) (i : Nat) : HarvestResult :=
  if i % K = 0 then
    { acc with scrolls := acc.scrolls ++ [(i, scroll_page (sE i) 0 800 30)] }
  else acc

/-- One full iteration of the slot loop of `scrap_ripley`. -/
def processSlot (env : Nat → Nat → DomState) (sE : Nat → Nat → Bool)
    (maxRetries K : Nat) (acc : HarvestResult) (i : Nat) : HarvestResult :=
  scrollStep sE K (recordStep env maxRetries acc i) i

/-- The slot indices visited by `for i in range(1, N + 1)`. -/
def slotIndices (N : Nat) : List Nat := (List.range N).map (fun k => k + 1)

/-- Embedding of `Scrapper.scrap_ripley`, with the slot range `1..N`, the
retry cap and the scroll cadence abstracted as parameters.  The source fixes
`N = 49` (`range(1, 50)`), `maxRetries = 2` and `K = 10`. -/
def scrap_ripley (env : Nat → Nat → DomState) (sE : Nat → Nat → Bool)
    (maxRetries N K : Nat) : HarvestResult :=
  (slotIndices N).foldl (processSlot env sE maxRetries K) ⟨[], [], [], [], []⟩

/-- Embedding of `Scrapper.transform_to_df`: a data frame as an ordered list
of (column name, column values) pairs, exactly the dictionary passed to
`pd.DataFrame`. -/
def transform_to_df (descripciones precios_regular precios_oferta imagenes :
    List String) : List (String × List String) :=
  [("descripcion", descripciones),
   ("precio_regular", precios_regular),
   ("precio_oferta", precios_oferta),
   ("imagen", imagenes)]

/-- The instance attributes ever assigned on a `Scrapper` object:
`__init__` sets only `self.driver`, and no other method of the class (nor
any caller) assigns an attribute; in particular `self.wait` is never
assigned. -/
def scrapper_instance_attributes : List String := ["driver"]

/-- Embedding of `Scrapper._wait_for_page_load`: the `try` body reads
`self.wait`, which raises `AttributeError` because the attribute was never
assigned (see `scrapper_instance_attributes`); the surrounding `except`
catches only `TimeoutException`, so the `AttributeError` propagates.  Were
the attribute present, the method would swallow its own timeout and return
normally. -/
def wait_for_page_load : Except String Unit :=
  if "wait" ∈ scrapper_instance_attributes then Except.ok ()
  else Except.error "AttributeError"

/-- Embedding of `Scrapper.get_data_from_pagenumber`: navigate, call
`self._wait_for_page_load()` (unguarded), then run `scrap_ripley` (with the
source's fixed `maxRetries = 2`, `N = 49`, `K = 10`), hand the four lists to
`transform_to_df`, write the frame to CSV and return it.  An exception from
`_wait_for_page_load` propagates before any harvesting or export happens. -/
def get_data_from_pagenumber (env : Nat → Nat → DomState)
    (sE : Nat → Nat → Bool) : Except String (List (String × List String)) := do
  let _ ← wait_for_page_load
  let res := scrap_ripley env sE 2 49 10
  return transform_to_df res.descripciones res.precios_regular
    res.precios_oferta res.imagenes

/-- Persisted cookie state at one path, as seen by `load_cookies`: the file
is absent (`FileNotFoundError`), present but unreadable / unpicklable / not
an iterable of cookies (any other exception), or a well-formed pickled list
of cookies. -/
inductive CookieFile (Cookie : Type) where
  | missing
  | corrupt
  | blob (cookies : List Cookie)

/-- Embedding of `save_cookies` of `main_scrapper.py`: pickle the session's
cookie list to `cookie_path`, yielding the updated file system. -/
def save_cookies {Cookie : Type} (fs : String → CookieFile Cookie)
    (sessionCookies : List Cookie) (cookie_path : String) :
    String → CookieFile Cookie :=
  fun p => if p = cookie_path then .blob sessionCookies else fs p

/-- Embedding of `load_cookies` of `main_scrapper.py`.  `addCookie c` tells
whether `driver.add_cookie(c)` succeeds; a failing `add_cookie` is caught and
logged inside the per-cookie `try`.  Returns the boolean result together
with the cookies actually applied to the driver.  A missing file
(`FileNotFoundError`) and any other failure both return `false`; the
function never raises. -/
def load_cookies {Cookie : Type} (fs : String → CookieFile Cookie)
    (addCookie : Cookie → Bool) (cookie_path : String) : Bool × List Cookie :=
  match fs cookie_path with
  | .missing => (false, [])
  | .corrupt => (false, [])
  | .blob cs => (true, cs.filter addCookie)

/-- Observable steps of the session-establishment part of `main` of
`main_scrapper.py`. -/
inductive MainStep where
  | visitHome
  | manualGate
  | persistCookies
  deriving DecidableEq, Repr

/-- Embedding of the session-establishment flow of `main`: if
`load_cookies` fails, visit the home page, block on the interactive captcha
gate (`input(...)`) and save fresh cookies; if it succeeds, just revisit the
home page.  Returns the executed steps and the resulting file system. -/
def establish_session {Cookie : Type} (fs : String → CookieFile Cookie)
    (addCookie : Cookie → Bool) (sessionCookies : List Cookie)
    (cookie_path : String) :
    List MainStep × (String → CookieFile Cookie) :=
  if (load_cookies fs addCookie cookie_path).1 then
    ([.visitHome], fs)
  else
    ([.visitHome, .manualGate, .persistCookies],
      save_cookies fs sessionCookies cookie_path)

/-- The record a slot ends up with, given at least one retry: `extractSlot`
is then always `some`, so the default is never used. -/
def slotRecordD (env : Nat → Nat → DomState) (maxRetries i : Nat) : ProductRecord :=
  (extractSlot (env i) i maxRetries).getD emptyRecord

/-- The records appended over a list of slot indices. -/
def harvestedRecords (env : Nat → Nat → DomState) (maxRetries : Nat)
    (L : List Nat) : List ProductRecord :=
  L.filterMap (fun i => extractSlot (env i) i maxRetries)

theorem retryLoop_isSome (denv : Nat → DomState) (i m : Nat) :
    ∀ fuel retry, retry + fuel = m → 1 ≤ fuel →
      (retryLoop denv i m fuel retry).isSome := by
  intro fuel
  induction fuel with
  | zero => intro retry _ h1; omega
  | succ f ih =>
    intro retry hsum _
    simp only [retryLoop]
    cases attemptExtract (denv retry) i with
    | ok r => simp
    | error e =>
      by_cases hr : retry = m - 1
      · simp [hr]
      · have hf : 1 ≤ f := by omega
        simp only [hr, if_false]
        exact ih (retry + 1) (by omega) hf

theorem extractSlot_eq_some (denv : Nat → DomState) (i m : Nat) (hm : 1 ≤ m) :
    extractSlot denv i m = some ((extractSlot denv i m).getD emptyRecord) := by
  have h := retryLoop_isSome denv i m m 0 (by omega) hm
  unfold extractSlot at h ⊢
  cases hE : retryLoop denv i m m 0 with
  | none => rw [hE] at h; simp at h
  | some r => simp

theorem harvestedRecords_of_pos (env : Nat → Nat → DomState) (m : Nat)
    (hm : 1 ≤ m) (L : List Nat) :
    harvestedRecords env m L = L.map (fun i => slotRecordD env m i) := by
  induction L with
  | nil => simp [harvestedRecords]
  | cons i rest ih =>
    simp only [harvestedRecords, List.filterMap_cons, List.map_cons] at *
    rw [extractSlot_eq_some (env i) i m hm]
    rw [ih]
    simp [slotRecordD]

theorem recordStep_descripciones (env : Nat → Nat → DomState) (m : Nat)
    (acc : HarvestResult) (i : Nat) :
    (recordStep env m acc i).descripciones =
      acc.descripciones ++
        ((extractSlot (env i) i m).map ProductRecord.descripcion).toList := by
  unfold recordStep appendRecord
  cases extractSlot (env i) i m <;> simp

theorem recordStep_precios_regular (env : Nat → Nat → DomState) (m : Nat)
    (acc : HarvestResult) (i : Nat) :
    (recordStep env m acc i).precios_regular =
      acc.precios_regular ++
        ((extractSlot (env i) i m).map ProductRecord.precio_regular).toList := by
  unfold recordStep appendRecord
  cases extractSlot (env i) i m <;> simp

theorem recordStep_precios_oferta (env : Nat → Nat → DomState) (m : Nat)
    (acc : HarvestResult) (i : Nat) :
    (recordStep env m acc i).precios_oferta =
      acc.precios_oferta ++
        ((extractSlot (env i) i m).map ProductRecord.precio_oferta).toList := by
  unfold recordStep appendRecord
  cases extractSlot (env i) i m <;> simp

theorem recordStep_imagenes (env : Nat → Nat → DomState) (m : Nat)
    (acc : HarvestResult) (i : Nat) :
    (recordStep env m acc i).imagenes =
      acc.imagenes ++
        ((extractSlot (env i) i m).map ProductRecord.imagen).toList := by
  unfold recordStep appendRecord
  cases extractSlot (env i) i m <;> simp

theorem recordStep_scrolls (env : Nat → Nat → DomState) (m : Nat)
    (acc : HarvestResult) (i : Nat) :
    (recordStep env m acc i).scrolls = acc.scrolls := by
  unfold recordStep appendRecord
  cases extractSlot (env i) i m <;> simp

theorem scrollStep_descripciones (sE : Nat → Nat → Bool) (K : Nat)
    (acc : HarvestResult) (i : Nat) :
    (scrollStep sE K acc i).descripciones = acc.descripciones := by
  unfold scrollStep; split <;> simp

theorem scrollStep_precios_regular (sE : Nat → Nat → Bool) (K : Nat)
    (acc : HarvestResult) (i : Nat) :
    (scrollStep sE K acc i).precios_regular = acc.precios_regular := by
  unfold scrollStep; split <;> simp

theorem scrollStep_precios_oferta (sE : Nat → Nat → Bool) (K : Nat)
    (acc : HarvestResult) (i : Nat) :
    (scrollStep sE K acc i).precios_oferta = acc.precios_oferta := by
  unfold scrollStep; split <;> simp

theorem scrollStep_imagenes (sE : Nat → Nat → Bool) (K : Nat)
    (acc : HarvestResult) (i : Nat) :
    (scrollStep sE K acc i).imagenes = acc.imagenes := by
  unfold scrollStep; split <;> simp

theorem scrollStep_scrolls (sE : Nat → Nat → Bool) (K : Nat)
    (acc : HarvestResult) (i : Nat) :
    (scrollStep sE K acc i).scrolls =
      acc.scrolls ++
        (if i % K = 0 then [(i, scroll_page (sE i) 0 800 30)] else []) := by
  unfold scrollStep; split <;> simp

theorem foldl_descripciones (env : Nat → Nat → DomState) (sE : Nat → Nat → Bool)
    (m K : Nat) (L : List Nat) (acc : HarvestResult) :
    (L.foldl (processSlot env sE m K) acc).descripciones =
      acc.descripciones ++
        (harvestedRecords env m L).map ProductRecord.descripcion := by
  induction L generalizing acc with
  | nil => simp [harvestedRecords]
  | cons i rest ih =>
    rw [List.foldl_cons, ih]
    simp only [processSlot, scrollStep_descripciones, recordStep_descripciones,
      harvestedRecords, List.filterMap_cons]
    cases extractSlot (env i) i m <;>
      simp [harvestedRecords, List.append_assoc]

theorem foldl_precios_regular (env : Nat → Nat → DomState) (sE : Nat → Nat → Bool)
    (m K : Nat) (L : List Nat) (acc : HarvestResult) :
    (L.foldl (processSlot env sE m K) acc).precios_regular =
      acc.precios_regular ++
        (harvestedRecords env m L).map ProductRecord.precio_regular := by
  induction L generalizing acc with
  | nil => simp [harvestedRecords]
  | cons i rest ih =>
    rw [List.foldl_cons, ih]
    simp only [processSlot, scrollStep_precios_regular, recordStep_precios_regular,
      harvestedRecords, List.filterMap_cons]
    cases extractSlot (env i) i m <;>
      simp [harvestedRecords, List.append_assoc]

theorem foldl_precios_oferta (env : Nat → Nat → DomState) (sE : Nat → Nat → Bool)
    (m K : Nat) (L : List Nat) (acc : HarvestResult) :
    (L.foldl (processSlot env sE m K) acc).precios_oferta =
      acc.precios_oferta ++
        (harvestedRecords env m L).map ProductRecord.precio_oferta := by
  induction L generalizing acc with
  | nil => simp [harvestedRecords]
  | cons i rest ih =>
    rw [List.foldl_cons, ih]
    simp only [processSlot, scrollStep_precios_oferta, recordStep_precios_oferta,
      harvestedRecords, List.filterMap_cons]
    cases extractSlot (env i) i m <;>
      simp [harvestedRecords, List.append_assoc]

theorem foldl_imagenes (env : Nat → Nat → DomState) (sE : Nat → Nat → Bool)
    (m K : Nat) (L : List Nat) (acc : HarvestResult) :
    (L.foldl (processSlot env sE m K) acc).imagenes =
      acc.imagenes ++
        (harvestedRecords env m L).map ProductRecord.imagen := by
  induction L generalizing acc with
  | nil => simp [harvestedRecords]
  | cons i rest ih =>
    rw [List.foldl_cons, ih]
    simp only [processSlot, scrollStep_imagenes, recordStep_imagenes,
      harvestedRecords, List.filterMap_cons]
    cases extractSlot (env i) i m <;>
      simp [harvestedRecords, List.append_assoc]

theorem foldl_scrolls (env : Nat → Nat → DomState) (sE : Nat → Nat → Bool)
    (m K : Nat) (L : List Nat) (acc : HarvestResult) :
    (L.foldl (processSlot env sE m K) acc).scrolls =
      acc.scrolls ++
        (L.filter (fun i => decide (i % K = 0))).map
          (fun i => (i, scroll_page (sE i) 0 800 30)) := by
  induction L generalizing acc with
  | nil => simp
  | cons i rest ih =>
    rw [List.foldl_cons, ih]
    simp only [processSlot, scrollStep_scrolls, recordStep_scrolls,
      List.filter_cons]
    by_cases h : i % K = 0 <;> simp [h, List.append_assoc]

theorem scrap_ripley_descripciones (env : Nat → Nat → DomState)
    (sE : Nat → Nat → Bool) (m N K : Nat) (hm : 1 ≤ m) :
    (scrap_ripley env sE m N K).descripciones =
      (slotIndices N).map (fun i => (slotRecordD env m i).descripcion) := by
  unfold scrap_ripley
  rw [foldl_descripciones, harvestedRecords_of_pos env m hm]
  simp [List.map_map, Function.comp]

theorem scrap_ripley_precios_regular (env : Nat → Nat → DomState)
    (sE : Nat → Nat → Bool) (m N K : Nat) (hm : 1 ≤ m) :
    (scrap_ripley env sE m N K).precios_regular =
      (slotIndices N).map (fun i => (slotRecordD env m i).precio_regular) := by
  unfold scrap_ripley
  rw [foldl_precios_regular, harvestedRecords_of_pos env m hm]
  simp [List.map_map, Function.comp]

theorem scrap_ripley_precios_oferta (env : Nat → Nat → DomState)
    (sE : Nat → Nat → Bool) (m N K : Nat) (hm : 1 ≤ m) :
    (scrap_ripley env sE m N K).precios_oferta =
      (slotIndices N).map (fun i => (slotRecordD env m i).precio_oferta) := by
  unfold scrap_ripley
  rw [foldl_precios_oferta, harvestedRecords_of_pos env m hm]
  simp [List.map_map, Function.comp]

theorem scrap_ripley_imagenes (env : Nat → Nat → DomState)
    (sE : Nat → Nat → Bool) (m N K : Nat) (hm : 1 ≤ m) :
    (scrap_ripley env sE m N K).imagenes =
      (slotIndices N).map (fun i => (slotRecordD env m i).imagen) := by
  unfold scrap_ripley
  rw [foldl_imagenes, harvestedRecords_of_pos env m hm]
  simp [List.map_map, Function.comp]

theorem scrap_ripley_scrolls (env : Nat → Nat → DomState)
    (sE : Nat → Nat → Bool) (m N K : Nat) :
    (scrap_ripley env sE m N K).scrolls =
      ((slotIndices N).filter (fun i => decide (i % K = 0))).map
        (fun i => (i, scroll_page (sE i) 0 800 30)) := by
  unfold scrap_ripley
  rw [foldl_scrolls]
  simp

theorem retryLoop_congr (d d' : Nat → DomState) (i m : Nat)
    (h : ∀ r, r < m → attemptExtract (d r) i = attemptExtract (d' r) i) :
    ∀ fuel retry, retry + fuel ≤ m →
      retryLoop d i m fuel retry = retryLoop d' i m fuel retry := by
  intro fuel
  induction fuel with
  | zero => intro retry _; rfl
  | succ f ih =>
    intro retry hle
    simp only [retryLoop]
    rw [h retry (by omega)]
    cases attemptExtract (d' retry) i with
    | ok r => rfl
    | error e =>
      by_cases hr : retry = m - 1
      · simp [hr]
      · simp only [hr, if_false]
        exact ih (retry + 1) (by omega)

theorem extractSlot_congr (d d' : Nat → DomState) (i m : Nat)
    (h : ∀ r, r < m → attemptExtract (d r) i = attemptExtract (d' r) i) :
    extractSlot d i m = extractSlot d' i m :=
  retryLoop_congr d d' i m h m 0 (by omega)

theorem extractSlot_all_fail (d : Nat → DomState) (i : Nat)
    (hfail : ∀ r, r < 2 → ∃ e, attemptExtract (d r) i = Except.error e) :
    extractSlot d i 2 = some emptyRecord := by
  obtain ⟨e0, h0⟩ := hfail 0 (by omega)
  obtain ⟨e1, h1⟩ := hfail 1 (by omega)
  simp [extractSlot, retryLoop, h0, h1]

theorem scrollLoop_spec (env : Nat → Bool) (step : Int) :
    ∀ fuel i current,
      (scrollLoop env step fuel i current).2.length ≤ fuel ∧
      (scrollLoop env step fuel i current).1 =
        current + step * ((scrollLoop env step fuel i current).2.length : Int) ∧
      (scrollLoop env step fuel i current).2 =
        (List.range (scrollLoop env step fuel i current).2.length).map
          (fun k : Nat => current + step * (k : Int)) ∧
      (∀ k, k < (scrollLoop env step fuel i current).2.length →
        env (i + k) = true) ∧
      ((scrollLoop env step fuel i current).2.length < fuel →
        env (i + (scrollLoop env step fuel i current).2.length) = false) := by
  intro fuel
  induction fuel with
  | zero => intro i current; simp [scrollLoop]
  | succ f ih =>
    intro i current
    by_cases h : env i
    · have hrw : scrollLoop env step (f + 1) i current =
          ((scrollLoop env step f (i + 1) (current + step)).1,
            current :: (scrollLoop env step f (i + 1) (current + step)).2) := by
        simp [scrollLoop, h]
      obtain ⟨ihlen, ihfin, ihlist, ihtrue, ihstop⟩ := ih (i + 1) (current + step)
      rw [hrw]
      refine ⟨by simpa using Nat.succ_le_succ ihlen, ?_, ?_, ?_, ?_⟩
      · simp only [List.length_cons]
        rw [ihfin]
        push_cast
        ring
      · simp only [List.length_cons, List.range_succ_eq_map, List.map_cons,
          List.map_map, List.cons.injEq]
        refine ⟨by simp, ?_⟩
        conv_lhs => rw [ihlist]
        refine List.map_congr_left (fun k _ => ?_)
        simp only [Function.comp]
        push_cast
        ring
      · intro k hk
        cases k with
        | zero => simpa using h
        | succ k' =>
          have := ihtrue k' (by simpa using Nat.lt_of_succ_lt_succ hk)
          rw [show i + (k' + 1) = (i + 1) + k' by omega]
          exact this
      · intro hlt
        simp only [List.length_cons] at hlt ⊢
        have := ihstop (Nat.lt_of_succ_lt_succ hlt)
        rw [show i + ((scrollLoop env step f (i + 1) (current + step)).2.length + 1) =
          (i + 1) + (scrollLoop env step f (i + 1) (current + step)).2.length by omega]
        exact this
    · have hrw : scrollLoop env step (f + 1) i current = (current, []) := by
        simp [scrollLoop, h]
      rw [hrw]
      refine ⟨by simp, by simp, by simp, by simp, ?_⟩
      intro _
      simpa using h

theorem slotIndices_length (N : Nat) : (slotIndices N).length = N := by
  simp [slotIndices]

theorem slotIndices_getElem (N k : Nat) (hk : k < N) :
    (slotIndices N)[k]? = some (k + 1) := by
  simp [slotIndices, List.getElem?_map, List.getElem?_range, hk]

/-- C1: for every slot range `1..N`, `scrap_ripley` produces four parallel
field lists of length exactly `N`, one entry per slot index in ascending slot
order (entry `k` is the record of slot `k + 1`), regardless of how many
individual field lookups fail: a slot whose extraction fails entirely still
contributes a record (the all-empty fallback), never an omission. -/
theorem scrap_ripley_complete (env : Nat → Nat → DomState)
    (sE : Nat → Nat → Bool) (N K : Nat) :
    (scrap_ripley env sE 2 N K).descripciones.length = N ∧
    (scrap_ripley env sE 2 N K).precios_regular.length = N ∧
    (scrap_ripley env sE 2 N K).precios_oferta.length = N ∧
    (scrap_ripley env sE 2 N K).imagenes.length = N ∧
    (scrap_ripley env sE 2 N K).descripciones =
      (slotIndices N).map (fun i => (slotRecordD env 2 i).descripcion) ∧
    (scrap_ripley env sE 2 N K).precios_regular =
      (slotIndices N).map (fun i => (slotRecordD env 2 i).precio_regular) ∧
    (scrap_ripley env sE 2 N K).precios_oferta =
      (slotIndices N).map (fun i => (slotRecordD env 2 i).precio_oferta) ∧
    (scrap_ripley env sE 2 N K).imagenes =
      (slotIndices N).map (fun i => (slotRecordD env 2 i).imagen) := by
  have h2 : (1 : Nat) ≤ 2 := by omega
  refine ⟨?_, ?_, ?_, ?_,
    scrap_ripley_descripciones env sE 2 N K h2,
    scrap_ripley_precios_regular env sE 2 N K h2,
    scrap_ripley_precios_oferta env sE 2 N K h2,
    scrap_ripley_imagenes env sE 2 N K h2⟩
  · rw [scrap_ripley_descripciones env sE 2 N K h2, List.length_map,
      slotIndices_length]
  · rw [scrap_ripley_precios_regular env sE 2 N K h2, List.length_map,
      slotIndices_length]
  · rw [scrap_ripley_precios_oferta env sE 2 N K h2, List.length_map,
      slotIndices_length]
  · rw [scrap_ripley_imagenes env sE 2 N K h2, List.length_map,
      slotIndices_length]

/-- C2: extraction for a slot consults at most `max_retries = 2` attempts
(the outcome only depends on attempts `0` and `1`); a slot all of whose
attempts raise gets position `j - 1` of every field list recorded as the
empty string (the all-empty fallback record, not an omission: all four lists
still have length `N`); and a failed slot does not change the records of any
other slot (changing the DOM environment of slot `j` alone leaves every
other position of every list unchanged). -/
theorem scrap_ripley_retry_fallback (env : Nat → Nat → DomState)
    (sE : Nat → Nat → Bool) (N K j : Nat) (hj1 : 1 ≤ j) (hjN : j ≤ N)
    (hfail : ∀ r, r < 2 → ∃ e, attemptExtract (env j r) j = Except.error e) :
    (∀ (d d' : Nat → DomState) (i : Nat),
      (∀ r, r < 2 → attemptExtract (d r) i = attemptExtract (d' r) i) →
      extractSlot d i 2 = extractSlot d' i 2) ∧
    (scrap_ripley env sE 2 N K).descripciones.length = N ∧
    (scrap_ripley env sE 2 N K).precios_regular.length = N ∧
    (scrap_ripley env sE 2 N K).precios_oferta.length = N ∧
    (scrap_ripley env sE 2 N K).imagenes.length = N ∧
    (scrap_ripley env sE 2 N K).descripciones[j - 1]? = some "" ∧
    (scrap_ripley env sE 2 N K).precios_regular[j - 1]? = some "" ∧
    (scrap_ripley env sE 2 N K).precios_oferta[j - 1]? = some "" ∧
    (scrap_ripley env sE 2 N K).imagenes[j - 1]? = some "" ∧
    (∀ (env' : Nat → Nat → DomState), (∀ i, i ≠ j → env' i = env i) →
      ∀ k, k < N → k + 1 ≠ j →
        ((scrap_ripley env' sE 2 N K).descripciones[k]? =
            (scrap_ripley env sE 2 N K).descripciones[k]? ∧
          (scrap_ripley env' sE 2 N K).precios_regular[k]? =
            (scrap_ripley env sE 2 N K).precios_regular[k]? ∧
          (scrap_ripley env' sE 2 N K).precios_oferta[k]? =
            (scrap_ripley env sE 2 N K).precios_oferta[k]? ∧
          (scrap_ripley env' sE 2 N K).imagenes[k]? =
            (scrap_ripley env sE 2 N K).imagenes[k]?)) := by
  have h2 : (1 : Nat) ≤ 2 := by omega
  have hj : j - 1 < N := by omega
  have hemp : slotRecordD env 2 j = emptyRecord := by
    unfold slotRecordD
    rw [extractSlot_all_fail (env j) j hfail]
    rfl
  have hidx : j - 1 + 1 = j := by omega
  refine ⟨fun d d' i h => extractSlot_congr d d' i 2 h,
    (scrap_ripley_complete env sE N K).1,
    (scrap_ripley_complete env sE N K).2.1,
    (scrap_ripley_complete env sE N K).2.2.1,
    (scrap_ripley_complete env sE N K).2.2.2.1, ?_, ?_, ?_, ?_, ?_⟩
  · rw [scrap_ripley_descripciones env sE 2 N K h2, List.getElem?_map,
      slotIndices_getElem N (j - 1) hj]
    simp [hidx, hemp, emptyRecord]
  · rw [scrap_ripley_precios_regular env sE 2 N K h2, List.getElem?_map,
      slotIndices_getElem N (j - 1) hj]
    simp [hidx, hemp, emptyRecord]
  · rw [scrap_ripley_precios_oferta env sE 2 N K h2, List.getElem?_map,
      slotIndices_getElem N (j - 1) hj]
    simp [hidx, hemp, emptyRecord]
  · rw [scrap_ripley_imagenes env sE 2 N K h2, List.getElem?_map,
      slotIndices_getElem N (j - 1) hj]
    simp [hidx, hemp, emptyRecord]
  · intro env' henv k hk hkj
    have hrec : slotRecordD env' 2 (k + 1) = slotRecordD env 2 (k + 1) := by
      unfold slotRecordD
      rw [henv (k + 1) hkj]
    refine ⟨?_, ?_, ?_, ?_⟩
    · rw [scrap_ripley_descripciones env sE 2 N K h2,
        scrap_ripley_descripciones env' sE 2 N K h2, List.getElem?_map,
        List.getElem?_map, slotIndices_getElem N k hk]
      simp [hrec]
    · rw [scrap_ripley_precios_regular env sE 2 N K h2,
        scrap_ripley_precios_regular env' sE 2 N K h2, List.getElem?_map,
        List.getElem?_map, slotIndices_getElem N k hk]
      simp [hrec]
    · rw [scrap_ripley_precios_oferta env sE 2 N K h2,
        scrap_ripley_precios_oferta env' sE 2 N K h2, List.getElem?_map,
        List.getElem?_map, slotIndices_getElem N k hk]
      simp [hrec]
    · rw [scrap_ripley_imagenes env sE 2 N K h2,
        scrap_ripley_imagenes env' sE 2 N K h2, List.getElem?_map,
        List.getElem?_map, slotIndices_getElem N k hk]
      simp [hrec]

/-- A DOM state whose every lookup raises a session-level exception. -/
def fatalDomW : DomState :=
  ⟨fun _ => WaitResult.fatal "boom", fun _ => WaitResult.fatal "boom"⟩

/-- A DOM state whose every lookup succeeds. -/
def okDomW : DomState :=
  ⟨fun _ => WaitResult.found "some text", fun _ => WaitResult.found "some-url"⟩

/-- A harvest environment where slot 7 always raises and every other slot
succeeds. -/
def envW : Nat → Nat → DomState := fun i _ => if i = 7 then fatalDomW else okDomW

/-- A scroll environment where every scroll action succeeds. -/
def sEW : Nat → Nat → Bool := fun _ _ => true

/-- Witness for C2: with 10 slots and slot 7 raising on both attempts, the
description at position 6 (slot 7) is the empty string. -/
theorem scrap_ripley_retry_fallback_witness :
    (scrap_ripley envW sEW 2 10 10).descripciones[6]? = some "" :=
  (scrap_ripley_retry_fallback envW sEW 10 10 7 (by omega) (by omega)
    (fun _ _ => ⟨"boom", rfl⟩)).2.2.2.2.2.1

/-- C3: `_find_image_safe` returns the attribute value of the element matched
by the first XPath in the list that is present, even if later XPaths would
also match (the tail `post` is unconstrained); if no XPath matches it returns
the empty string. -/
theorem find_image_safe_first_match (dom : String → WaitResult)
    (xs : List String) :
    (∀ (pre post : List String) (b v : String),
      xs = pre ++ b :: post →
      (∀ x ∈ pre, dom x = WaitResult.timeout) →
      dom b = WaitResult.found v →
      find_image_safe dom xs = Except.ok v) ∧
    ((∀ x ∈ xs, dom x = WaitResult.timeout) →
      find_image_safe dom xs = Except.ok "") := by
  constructor
  · intro pre post b v hxs hpre hb
    subst hxs
    induction pre with
    | nil => simp [find_image_safe, hb]
    | cons p pre' ih =>
      have hp : dom p = WaitResult.timeout := hpre p (by simp)
      simp only [List.cons_append, find_image_safe, hp]
      exact ih (fun x hx => hpre x (by simp [hx]))
  · intro hall
    induction xs with
    | nil => rfl
    | cons x rest ih =>
      have hx : dom x = WaitResult.timeout := hall x (by simp)
      simp only [find_image_safe, hx]
      exact ih (fun y hy => hall y (by simp [hy]))

/-- A DOM in which only the XPath "B" has a present element (with `src`
attribute "img-b"); every other lookup times out. -/
def domOnlyB : String → WaitResult :=
  fun x => if x = "B" then WaitResult.found "img-b" else WaitResult.timeout

/-- Witness for C3: on the spec's scenario `[A, B, C, D]` with only `B`
present, `_find_image_safe` returns B's attribute value. -/
theorem find_image_safe_first_match_witness :
    find_image_safe domOnlyB ["A", "B", "C", "D"] = Except.ok "img-b" :=
  (find_image_safe_first_match domOnlyB ["A", "B", "C", "D"]).1
    ["A"] ["C", "D"] "B" "img-b" rfl (by decide) (by decide)

/-- Supporting fact: even the frame `transform_to_df` would build does not
carry the column names `description, regular_price, offer_price, image` the
spec states (shown on the concrete input of four empty lists): its columns
are the Spanish `descripcion, precio_regular, precio_oferta, imagen`. -/
theorem transform_to_df_columns_not_spec_names :
    (transform_to_df [] [] [] []).map Prod.fst ≠
      ["description", "regular_price", "offer_price", "image"] := by
  decide

/-- C4: the tabular-output path the claim describes is unreachable in the
code: for every DOM and scroll environment, `get_data_from_pagenumber`
raises the `AttributeError` escaping `_wait_for_page_load` (the `self.wait`
attribute is never assigned, and the `except` there catches only
`TimeoutException`) before any slot is harvested, so no tabular dataset is
ever handed to the persistence boundary or returned to the caller. -/
theorem get_data_from_pagenumber_always_raises (env : Nat → Nat → DomState)
    (sE : Nat → Nat → Bool) :
    get_data_from_pagenumber env sE = Except.error "AttributeError" := by
  rfl

/-- C5: `load_cookies` never raises and returns `false` both when the cookie
file does not exist (`FileNotFoundError`) and when the persisted state is
corrupt or of an incompatible format (any other deserialization failure);
in both cases no cookie is applied. -/
theorem load_cookies_missing_or_corrupt {Cookie : Type}
    (fs : String → CookieFile Cookie) (addCookie : Cookie → Bool)
    (path : String) :
    (fs path = CookieFile.missing → load_cookies fs addCookie path = (false, [])) ∧
    (fs path = CookieFile.corrupt → load_cookies fs addCookie path = (false, [])) := by
  constructor
  · intro h; simp [load_cookies, h]
  · intro h; simp [load_cookies, h]

/-- A file system with no cookie file anywhere. -/
def fsMissingW : String → CookieFile String := fun _ => CookieFile.missing

/-- A file system whose every path holds a corrupt cookie file. -/
def fsCorruptW : String → CookieFile String := fun _ => CookieFile.corrupt

/-- Witness for C5: restoring from a missing path and from a corrupt file
both return `false`. -/
theorem load_cookies_missing_or_corrupt_witness :
    load_cookies fsMissingW (fun _ => true) "cookies/ripley_cookies.pkl" =
      (false, []) ∧
    load_cookies fsCorruptW (fun _ => true) "cookies/ripley_cookies.pkl" =
      (false, []) :=
  ⟨(load_cookies_missing_or_corrupt fsMissingW (fun _ => true)
      "cookies/ripley_cookies.pkl").1 rfl,
    (load_cookies_missing_or_corrupt fsCorruptW (fun _ => true)
      "cookies/ripley_cookies.pkl").2 rfl⟩

/-- C6: round-trip: after `save_cookies` writes the session's cookies to a
destination, `load_cookies` on the same destination returns `true`, and the
session-establishment flow of `main` then skips the manual-challenge
(`input`) gate. -/
theorem cookie_roundtrip_skips_gate {Cookie : Type}
    (fs : String → CookieFile Cookie) (addCookie : Cookie → Bool)
    (cs cs2 : List Cookie) (path : String) :
    (load_cookies (save_cookies fs cs path) addCookie path).1 = true ∧
    MainStep.manualGate ∉
      (establish_session (save_cookies fs cs path) addCookie cs2 path).1 := by
  have hsave : save_cookies fs cs path path = CookieFile.blob cs := by
    simp [save_cookies]
  have hload : (load_cookies (save_cookies fs cs path) addCookie path).1 = true := by
    simp [load_cookies, hsave]
  refine ⟨hload, ?_⟩
  simp [establish_session, hload]

/-- Witness for C6: saving two cookies over an initially empty file system
and restoring from the same path returns `true`, and the establishment flow
runs no manual gate. -/
theorem cookie_roundtrip_skips_gate_witness :
    (load_cookies (save_cookies fsMissingW ["cookie-one", "cookie-two"]
        "cookies/ripley_cookies.pkl") (fun _ => true)
      "cookies/ripley_cookies.pkl").1 = true ∧
    MainStep.manualGate ∉
      (establish_session (save_cookies fsMissingW ["cookie-one", "cookie-two"]
          "cookies/ripley_cookies.pkl") (fun _ => true) ["cookie-three"]
        "cookies/ripley_cookies.pkl").1 :=
  cookie_roundtrip_skips_gate fsMissingW (fun _ => true)
    ["cookie-one", "cookie-two"] ["cookie-three"] "cookies/ripley_cookies.pkl"

/-- C7: with the harvester's slot range `1..49` and scroll cadence `K = 10`,
the Scroll Driver is invoked exactly at slots 10, 20, 30 and 40 — 4 times —
and in particular not at slot 49. -/
theorem scrap_ripley_scroll_cadence (env : Nat → Nat → DomState)
    (sE : Nat → Nat → Bool) :
    (scrap_ripley env sE 2 49 10).scrolls.map Prod.fst = [10, 20, 30, 40] ∧
    (scrap_ripley env sE 2 49 10).scrolls.length = 4 := by
  have h := scrap_ripley_scrolls env sE 2 49 10
  constructor
  · rw [h, List.map_map]
    have hcomp : (Prod.fst ∘ fun i : Nat => (i, scroll_page (sE i) 0 800 30)) =
        fun i : Nat => i := rfl
    rw [hcomp]
    decide
  · rw [h, List.length_map]
    decide

/-- C8: `_scroll_page` is total: a failing scroll step aborts the remaining
steps of that invocation without propagating (the result is always a final
offset and the list of performed actions); at most `max_scrolls` steps run,
the performed actions are consecutive offsets advancing by `step` from
`start`, every performed step's action succeeded, and either all steps ran or
the first step after the performed ones is the one that threw.  A scroll
failure never aborts the harvest: the four record lists of `scrap_ripley` do
not depend on the scroll environment at all. -/
theorem scroll_page_best_effort (env : Nat → Bool) (start step : Int)
    (max_scrolls : Nat) :
    (scroll_page env start step max_scrolls).2.length ≤ max_scrolls ∧
    (scroll_page env start step max_scrolls).1 =
      start + step * ((scroll_page env start step max_scrolls).2.length : Int) ∧
    (scroll_page env start step max_scrolls).2 =
      (List.range (scroll_page env start step max_scrolls).2.length).map
        (fun k : Nat => start + step * (k : Int)) ∧
    (List.range (scroll_page env start step max_scrolls).2.length).all env =
      true ∧
    ((scroll_page env start step max_scrolls).2.length = max_scrolls ∨
      env (scroll_page env start step max_scrolls).2.length = false) ∧
    (∀ (denv : Nat → Nat → DomState) (sE sE' : Nat → Nat → Bool) (m N K : Nat),
      (scrap_ripley denv sE m N K).descripciones =
        (scrap_ripley denv sE' m N K).descripciones ∧
      (scrap_ripley denv sE m N K).precios_regular =
        (scrap_ripley denv sE' m N K).precios_regular ∧
      (scrap_ripley denv sE m N K).precios_oferta =
        (scrap_ripley denv sE' m N K).precios_oferta ∧
      (scrap_ripley denv sE m N K).imagenes =
        (scrap_ripley denv sE' m N K).imagenes) := by
  obtain ⟨hlen, hfin, hlist, htrue, hstop⟩ :=
    scrollLoop_spec env step max_scrolls 0 start
  refine ⟨hlen, hfin, hlist, ?_, ?_, ?_⟩
  · rw [List.all_eq_true]
    intro x hx
    rw [List.mem_range] at hx
    simpa using htrue x hx
  · by_cases h : (scroll_page env start step max_scrolls).2.length = max_scrolls
    · exact Or.inl h
    · exact Or.inr (by simpa using hstop (lt_of_le_of_ne hlen h))
  · intro denv sE sE' m N K
    refine ⟨?_, ?_, ?_, ?_⟩
    · unfold scrap_ripley
      rw [foldl_descripciones, foldl_descripciones]
    · unfold scrap_ripley
      rw [foldl_precios_regular, foldl_precios_regular]
    · unfold scrap_ripley
      rw [foldl_precios_oferta, foldl_precios_oferta]
    · unfold scrap_ripley
      rw [foldl_imagenes, foldl_imagenes]

/-- C9: `_find_element_safe` never escalates element absence: a timeout or
no-such-element outcome yields the empty string (`Except.ok`, not an
exception), a present element yields its text, and every non-exceptional
result is either extracted text of a present element or the empty string —
never a null/absent value. -/
theorem find_element_safe_absence (dom : String → WaitResult) (xpath : String) :
    (dom xpath = WaitResult.timeout →
      find_element_safe dom xpath = Except.ok "") ∧
    (∀ t, dom xpath = WaitResult.found t →
      find_element_safe dom xpath = Except.ok t) ∧
    (∀ s, find_element_safe dom xpath = Except.ok s →
      dom xpath = WaitResult.found s ∨ s = "") := by
  refine ⟨?_, ?_, ?_⟩
  · intro h; simp [find_element_safe, h]
  · intro t h; simp [find_element_safe, h]
  · intro s h
    unfold find_element_safe at h
    cases hd : dom xpath with
    | found t => rw [hd] at h; simp at h; subst h; exact Or.inl rfl
    | timeout => rw [hd] at h; simp at h; exact Or.inr h.symm
    | fatal m => rw [hd] at h; simp at h

/-- A DOM in which every element lookup times out. -/
def domAllTimeoutW : String → WaitResult := fun _ => WaitResult.timeout

/-- A DOM in which every element lookup finds an element with text "hello". -/
def domAllFoundW : String → WaitResult := fun _ => WaitResult.found "hello"

/-- Witness for C9: a timed-out lookup yields the empty string and a present
element yields its text. -/
theorem find_element_safe_absence_witness :
    find_element_safe domAllTimeoutW "p" = Except.ok "" ∧
    find_element_safe domAllFoundW "p" = Except.ok "hello" :=
  ⟨(find_element_safe_absence domAllTimeoutW "p").1 rfl,
    (find_element_safe_absence domAllFoundW "p").2.1 "hello" rfl⟩

/-- C10: `load_cookies` returns `true` whenever the persisted blob
deserializes, even if applying every individual cookie to the session fails:
per-cookie `add_cookie` errors are swallowed, so a `true` result can come
with no cookie actually applied. -/
theorem load_cookies_true_despite_apply_failures {Cookie : Type}
    (fs : String → CookieFile Cookie) (addCookie : Cookie → Bool)
    (path : String) (cs : List Cookie)
    (hblob : fs path = CookieFile.blob cs)
    (hfail : ∀ c, addCookie c = false) :
    (load_cookies fs addCookie path).1 = true ∧
    (load_cookies fs addCookie path).2 = [] := by
  simp [load_cookies, hblob, List.filter_eq_nil_iff, hfail]

/-- A file system whose every path holds a well-formed blob of two cookies. -/
def fsBlobW : String → CookieFile String :=
  fun _ => CookieFile.blob ["cookie-one", "cookie-two"]

/-- Witness for C10: restoring a well-formed two-cookie blob with an
always-failing `add_cookie` still returns `true`, with no cookie applied. -/
theorem load_cookies_true_despite_apply_failures_witness :
    (load_cookies fsBlobW (fun _ => false) "cookies/ripley_cookies.pkl").1 =
      true ∧
    (load_cookies fsBlobW (fun _ => false) "cookies/ripley_cookies.pkl").2 =
      [] :=
  load_cookies_true_despite_apply_failures fsBlobW (fun _ => false)
    "cookies/ripley_cookies.pkl" ["cookie-one", "cookie-two"] rfl
    (fun _ => rfl)

end Scrapper
